import Mathlib

/-!
Shallow embedding of `sensor.py` from the Elexa Guardian Home Assistant
integration.  The module defines two sensor entity classes
(`PairedSensorSensor`, `ValveControllerSensor`), static sensor
descriptions, and a platform setup routine that instantiates entities
from coordinator data.

Modelling conventions:
* Python dictionaries become association lists `List (String × V)`;
  subscription `d[k]` becomes `pyGet d k : Option V`, where `none`
  models a raised `KeyError`.
* A method that can raise a `KeyError` is embedded as a function into
  `Except σ σ`: `.ok s` is normal return with post-state `s`, and
  `.error s` is a raised lookup fault with the (possibly partially
  mutated) post-state `s` at the moment of the raise.
* Sensor payload values are abstract: everything is parametric in a
  value type `V`, since the module only moves values from coordinator
  dictionaries into entity attributes.
-/

/-- Association-list model of a Python `dict` keyed by strings. -/
def pyGet {V : Type} : List (String × V) → String → Option V
  | [], _ => none
  | (k', v) :: rest, k => if k = k' then some v else pyGet rest k

/-- Run the same projection on the state carried by either branch of an
`Except σ σ` result (used to read one attribute of the post-state whether
or not a fault was raised). -/
def collapse {σ β : Type} (f : σ → β) : Except σ σ → β
  | .ok s => f s
  | .error s => f s

/-- Apply a projection to the state carried by either branch of an
`Except σ σ` result while keeping the raised/returned distinction. -/
def onResult {σ β : Type} (f : σ → β) : Except σ σ → Except β β
  | .ok s => .ok (f s)
  | .error s => .error (f s)

/-- `true` exactly when the embedded method raised a lookup fault. -/
def raisedKeyError {σ : Type} : Except σ σ → Bool
  | .ok _ => false
  | .error _ => true

/- Constants imported from `homeassistant.const` (external library). -/

def PERCENTAGE : String := "%"

def TEMP_FAHRENHEIT : String := "°F"

def TIME_MINUTES : String := "min"

def DEVICE_CLASS_BATTERY : String := "battery"

def DEVICE_CLASS_TEMPERATURE : String := "temperature"

/-- Modelled from the spec: key of the diagnostics coordinator in the
valve controller's coordinator dictionary.  Defined in the
integration's `const.py`, which is not part of the analysed source; only
its distinctness from the onboard-sensor-status key matters here. -/
def API_SYSTEM_DIAGNOSTICS : String := "system_diagnostics"

/-- Modelled from the spec: key of the onboard-sensor-status coordinator
in the valve controller's coordinator dictionary.  Defined in the
integration's `const.py`, which is not part of the analysed source. -/
def API_SYSTEM_ONBOARD_SENSOR_STATUS : String := "system_onboard_sensor_status"

/- Constants defined at the top of `sensor.py`. -/

def SENSOR_KIND_BATTERY : String := "battery"

def SENSOR_KIND_TEMPERATURE : String := "temperature"

def SENSOR_KIND_UPTIME : String := "uptime"

/-- Embedding of `homeassistant.components.sensor.SensorEntityDescription`:
the static metadata record attached to each sensor entity. -/
structure SensorEntityDescription where
  key : String
  name : Option String := none
  device_class : Option String := none
  icon : Option String := none
  native_unit_of_measurement : Option String := none
deriving DecidableEq, Repr

def SENSOR_DESCRIPTION_BATTERY : SensorEntityDescription :=
  { key := SENSOR_KIND_BATTERY
    name := some "Battery"
    device_class := some DEVICE_CLASS_BATTERY
    native_unit_of_measurement := some PERCENTAGE }

def SENSOR_DESCRIPTION_TEMPERATURE : SensorEntityDescription :=
  { key := SENSOR_KIND_TEMPERATURE
    name := some "Temperature"
    device_class := some DEVICE_CLASS_TEMPERATURE
    native_unit_of_measurement := some TEMP_FAHRENHEIT }

def SENSOR_DESCRIPTION_UPTIME : SensorEntityDescription :=
  { key := SENSOR_KIND_UPTIME
    name := some "Uptime"
    icon := some "mdi:timer"
    native_unit_of_measurement := some TIME_MINUTES }

def PAIRED_SENSOR_SENSORS : List SensorEntityDescription :=
  [SENSOR_DESCRIPTION_BATTERY, SENSOR_DESCRIPTION_TEMPERATURE]

def VALVE_CONTROLLER_SENSORS : List SensorEntityDescription :=
  [SENSOR_DESCRIPTION_TEMPERATURE, SENSOR_DESCRIPTION_UPTIME]

/-- State of a `DataUpdateCoordinator` as consumed by this module: the
cached `data` dictionary and the `last_update_success` flag.  The
coordinator's own polling machinery is out of scope. -/
structure DataUpdateCoordinator (V : Type) where
  data : List (String × V)
  last_update_success : Bool
deriving Repr

/-- Entity state of a `PairedSensorSensor`.  `_description`,
`coordinator` and the host `SensorEntity` attribute slots
(`_attr_available`, `_attr_native_value`,
`_attr_native_unit_of_measurement`) are the only state this module
touches; the host defaults are available = `true` and unset (`none`)
attribute values. -/
structure PairedSensorSensor (V : Type) where
  _description : SensorEntityDescription
  coordinator : DataUpdateCoordinator V
  _attr_available : Bool := true
  _attr_native_value : Option V := none
  _attr_native_unit_of_measurement : Option String := none
deriving Repr

/-- `PairedSensorSensor.__init__`: `super().__init__` (modelled from the
spec: the `PairedSensorEntity` base class, defined in the integration's
`__init__.py` outside the analysed source, stores the description and
coordinator on the entity and leaves the attribute slots at their host
defaults), followed by the explicit assignment
`self._attr_native_unit_of_measurement = description.native_unit_of_measurement`. -/
def PairedSensorSensor.init {V : Type} (coordinator : DataUpdateCoordinator V)
    (description : SensorEntityDescription) : PairedSensorSensor V :=
  { _description := description
    coordinator := coordinator
    _attr_native_unit_of_measurement := description.native_unit_of_measurement }

/-- `PairedSensorSensor._async_update_from_latest_data`:

    if self._description.key == SENSOR_KIND_BATTERY:
        self._attr_native_value = self.coordinator.data["battery"]
    elif self._description.key == SENSOR_KIND_TEMPERATURE:
        self._attr_native_value = self.coordinator.data["temperature"]

A failing dictionary lookup raises before the assignment happens, so the
`.error` branch carries the unchanged entity state. -/
def PairedSensorSensor._async_update_from_latest_data {V : Type}
    (self : PairedSensorSensor V) :
    Except (PairedSensorSensor V) (PairedSensorSensor V) :=
  if self._description.key = SENSOR_KIND_BATTERY then
    match pyGet self.coordinator.data "battery" with
    | some v => .ok { self with _attr_native_value := some v }
    | none => .error self
  else if self._description.key = SENSOR_KIND_TEMPERATURE then
    match pyGet self.coordinator.data "temperature" with
    | some v => .ok { self with _attr_native_value := some v }
    | none => .error self
  else .ok self

/-- Entity state of a `ValveControllerSensor`: the description, the
dictionary of per-API coordinators, and the host attribute slots. -/
structure ValveControllerSensor (V : Type) where
  _description : SensorEntityDescription
  coordinators : List (String × DataUpdateCoordinator V)
  _attr_available : Bool := true
  _attr_native_value : Option V := none
  _attr_native_unit_of_measurement : Option String := none
deriving Repr

/-- `ValveControllerSensor.__init__`: `super().__init__` (modelled from
the spec: the `ValveControllerEntity` base class, defined in the
integration's `__init__.py` outside the analysed source, stores the
description and the coordinator dictionary and leaves the attribute
slots at their host defaults), followed by the explicit assignment of
`_attr_native_unit_of_measurement`. -/
def ValveControllerSensor.init {V : Type}
    (coordinators : List (String × DataUpdateCoordinator V))
    (description : SensorEntityDescription) : ValveControllerSensor V :=
  { _description := description
    coordinators := coordinators
    _attr_native_unit_of_measurement := description.native_unit_of_measurement }

/-- `ValveControllerSensor._async_continue_entity_setup`: returns the
list of API categories for which `async_add_coordinator_update_listener`
is called (that base-class method, outside the analysed source, only
registers an update listener; the registration is modelled by recording
the API name).  The entity state itself is untouched. -/
def ValveControllerSensor._async_continue_entity_setup {V : Type}
    (self : ValveControllerSensor V) : List String :=
  if self._description.key = SENSOR_KIND_TEMPERATURE then
    [API_SYSTEM_ONBOARD_SENSOR_STATUS]
  else []

/-- `ValveControllerSensor._async_update_from_latest_data`:

    if self._description.key == SENSOR_KIND_TEMPERATURE:
        self._attr_available = self.coordinators[
            API_SYSTEM_ONBOARD_SENSOR_STATUS].last_update_success
        self._attr_native_value = self.coordinators[
            API_SYSTEM_ONBOARD_SENSOR_STATUS].data["temperature"]
    elif self._description.key == SENSOR_KIND_UPTIME:
        self._attr_available = self.coordinators[
            API_SYSTEM_DIAGNOSTICS].last_update_success
        self._attr_native_value = self.coordinators[
            API_SYSTEM_DIAGNOSTICS].data["uptime"]

Each Python statement evaluates its right-hand side (which may raise a
`KeyError`) before assigning, and the second statement of a branch looks
the coordinator up again; the embedding mirrors this ordering so that a
fault in the second statement leaves `_attr_available` already
reassigned. -/
def ValveControllerSensor._async_update_from_latest_data {V : Type}
    (self : ValveControllerSensor V) :
    Except (ValveControllerSensor V) (ValveControllerSensor V) :=
  if self._description.key = SENSOR_KIND_TEMPERATURE then
    match pyGet self.coordinators API_SYSTEM_ONBOARD_SENSOR_STATUS with
    | none => .error self
    | some c =>
      let self1 : ValveControllerSensor V :=
        { self with _attr_available := c.last_update_success }
      match pyGet self1.coordinators API_SYSTEM_ONBOARD_SENSOR_STATUS with
      | none => .error self1
      | some c2 =>
        match pyGet c2.data "temperature" with
        | some v => .ok { self1 with _attr_native_value := some v }
        | none => .error self1
  else if self._description.key = SENSOR_KIND_UPTIME then
    match pyGet self.coordinators API_SYSTEM_DIAGNOSTICS with
    | none => .error self
    | some c =>
      let self1 : ValveControllerSensor V :=
        { self with _attr_available := c.last_update_success }
      match pyGet self1.coordinators API_SYSTEM_DIAGNOSTICS with
      | none => .error self1
      | some c2 =>
        match pyGet c2.data "uptime" with
        | some v => .ok { self1 with _attr_native_value := some v }
        | none => .error self1
  else .ok self

/-- An entity handed to `async_add_entities` by this platform. -/
inductive GuardianSensor (V : Type) where
  | valveController (e : ValveControllerSensor V)
  | pairedSensor (e : PairedSensorSensor V)
deriving Repr

/-- The slice of `hass.data[DOMAIN]` that `sensor.py` reads for one
config entry: `DATA_COORDINATOR[entry_id]` (the valve controller's
per-API coordinator dictionary) and
`DATA_COORDINATOR_PAIRED_SENSOR[entry_id]` (the paired-sensor
coordinators keyed by uid, in insertion order). -/
structure GuardianEntryData (V : Type) where
  coordinator : List (String × DataUpdateCoordinator V)
  coordinator_paired_sensor : List (String × DataUpdateCoordinator V)

/-- The `add_new_paired_sensor` callback registered by
`async_setup_entry` on the paired-sensor-coordinator-added dispatcher
signal: looks the uid up in the paired-sensor coordinator dictionary
(`none` models the `KeyError` on an unknown uid), builds one
`PairedSensorSensor` per description in `PAIRED_SENSOR_SENSORS`, and
calls `async_add_entities(entities, True)`; the returned pair is the
entity list together with the `update_before_add` flag. -/
def add_new_paired_sensor {V : Type} (data : GuardianEntryData V)
    (uid : String) : Option (List (PairedSensorSensor V) × Bool) :=
  match pyGet data.coordinator_paired_sensor uid with
  | none => none
  | some coordinator =>
    some (PAIRED_SENSOR_SENSORS.foldl
      (fun entities description =>
        entities ++ [PairedSensorSensor.init coordinator description]) [],
      true)

/-- The entity list built by `async_setup_entry` and passed to
`async_add_entities`: one `ValveControllerSensor` per description in
`VALVE_CONTROLLER_SENSORS`, then one `PairedSensorSensor` per already
registered paired-sensor coordinator and description in
`PAIRED_SENSOR_SENSORS` (iterating the coordinator dictionary values in
order). -/
def async_setup_entry_sensors {V : Type} (data : GuardianEntryData V) :
    List (GuardianSensor V) :=
  let sensors : List (GuardianSensor V) :=
    VALVE_CONTROLLER_SENSORS.foldl
      (fun acc description =>
        acc ++ [GuardianSensor.valveController
          (ValveControllerSensor.init data.coordinator description)]) []
  let sensors :=
    (data.coordinator_paired_sensor.map Prod.snd).foldl
      (fun acc coordinator =>
        PAIRED_SENSOR_SENSORS.foldl
          (fun acc2 description =>
            acc2 ++ [GuardianSensor.pairedSensor
              (PairedSensorSensor.init coordinator description)]) acc)
      sensors
  sensors

/-- The fields of a coordinator that this module's narrow interface
reads: `data` at the keys `"battery"`, `"temperature"`, `"uptime"`, and
`last_update_success`. -/
def coordinatorsAgree {V : Type} (c1 c2 : DataUpdateCoordinator V) : Prop :=
  pyGet c1.data "battery" = pyGet c2.data "battery" ∧
  pyGet c1.data "temperature" = pyGet c2.data "temperature" ∧
  pyGet c1.data "uptime" = pyGet c2.data "uptime" ∧
  c1.last_update_success = c2.last_update_success

/-- Agreement of two coordinator dictionaries at one API key: the key is
absent from both, or present in both with coordinators agreeing on the
narrow interface. -/
def coordinatorOptAgree {V : Type} :
    Option (DataUpdateCoordinator V) → Option (DataUpdateCoordinator V) → Prop
  | none, none => True
  | some c1, some c2 => coordinatorsAgree c1 c2
  | _, _ => False

/-- Observable entity state of a `PairedSensorSensor`: everything except
the reference to the externally owned coordinator. -/
def PairedSensorSensor.view {V : Type} (e : PairedSensorSensor V) :
    SensorEntityDescription × Bool × Option V × Option String :=
  (e._description, e._attr_available, e._attr_native_value,
    e._attr_native_unit_of_measurement)

/-- Observable entity state of a `ValveControllerSensor`: everything
except the reference to the externally owned coordinator dictionary. -/
def ValveControllerSensor.view {V : Type} (e : ValveControllerSensor V) :
    SensorEntityDescription × Bool × Option V × Option String :=
  (e._description, e._attr_available, e._attr_native_value,
    e._attr_native_unit_of_measurement)

/-! ## Claim theorems -/

/-- C1: for every `PairedSensorSensor`, `_async_update_from_latest_data`
sets `_attr_native_value` to `coordinator.data["battery"]` when the
description key is `"battery"`, and to `coordinator.data["temperature"]`
when it is `"temperature"`. -/
theorem paired_sensor_update_selects_field {V : Type} (e : PairedSensorSensor V)
    (k : String) (v : V)
    (hk : k = SENSOR_KIND_BATTERY ∨ k = SENSOR_KIND_TEMPERATURE)
    (hd : e._description.key = k)
    (hv : pyGet e.coordinator.data k = some v) :
    e._async_update_from_latest_data = .ok { e with _attr_native_value := some v } := by
  rcases hk with hk | hk <;> subst hk <;>
    simp [PairedSensorSensor._async_update_from_latest_data, hd, hv,
      SENSOR_KIND_BATTERY, SENSOR_KIND_TEMPERATURE] at hv ⊢

/-- Witness for C1 at a concrete battery sensor. -/
theorem paired_sensor_update_selects_field_witness :
    (PairedSensorSensor.init
        (DataUpdateCoordinator.mk [("battery", (42 : Int))] true)
        SENSOR_DESCRIPTION_BATTERY)._async_update_from_latest_data
      = .ok { PairedSensorSensor.init
            (DataUpdateCoordinator.mk [("battery", (42 : Int))] true)
            SENSOR_DESCRIPTION_BATTERY with _attr_native_value := some (42 : Int) } :=
  paired_sensor_update_selects_field _ SENSOR_KIND_BATTERY 42 (Or.inl rfl) rfl rfl

/-- C2: for every `ValveControllerSensor`, `_async_update_from_latest_data`
with key `"temperature"` sets `_attr_available` to the
onboard-sensor-status coordinator's `last_update_success` and
`_attr_native_value` to its `data["temperature"]`; with key `"uptime"` it
does the same from the diagnostics coordinator's `last_update_success`
and `data["uptime"]`. -/
theorem valve_controller_update_selects_field {V : Type} :
    ∀ (e : ValveControllerSensor V) (c : DataUpdateCoordinator V) (v : V),
      (e._description.key = SENSOR_KIND_TEMPERATURE →
        pyGet e.coordinators API_SYSTEM_ONBOARD_SENSOR_STATUS = some c →
        pyGet c.data "temperature" = some v →
        e._async_update_from_latest_data =
          .ok { e with _attr_available := c.last_update_success,
                       _attr_native_value := some v }) ∧
      (e._description.key = SENSOR_KIND_UPTIME →
        pyGet e.coordinators API_SYSTEM_DIAGNOSTICS = some c →
        pyGet c.data "uptime" = some v →
        e._async_update_from_latest_data =
          .ok { e with _attr_available := c.last_update_success,
                       _attr_native_value := some v }) := by
  intro e c v
  constructor
  · intro hd hc hv
    simp [ValveControllerSensor._async_update_from_latest_data, hd, hc, hv]
  · intro hd hc hv
    simp [ValveControllerSensor._async_update_from_latest_data, hd, hc, hv,
      SENSOR_KIND_TEMPERATURE, SENSOR_KIND_UPTIME]

/-- Witness for C2 at a concrete uptime sensor. -/
theorem valve_controller_update_selects_field_witness :
    (ValveControllerSensor.init
        [(API_SYSTEM_DIAGNOSTICS, DataUpdateCoordinator.mk [("uptime", (9 : Int))] false)]
        SENSOR_DESCRIPTION_UPTIME)._async_update_from_latest_data
      = .ok { ValveControllerSensor.init
            [(API_SYSTEM_DIAGNOSTICS, DataUpdateCoordinator.mk [("uptime", (9 : Int))] false)]
            SENSOR_DESCRIPTION_UPTIME with
          _attr_available := false, _attr_native_value := some (9 : Int) } :=
  (valve_controller_update_selects_field _
      (DataUpdateCoordinator.mk [("uptime", (9 : Int))] false) 9).2 rfl rfl rfl

/-- Flattening the nested paired-sensor construction loop of
`async_setup_entry_sensors`. -/
theorem paired_loop_flattens {V : Type}
    (cs : List (DataUpdateCoordinator V)) (acc : List (GuardianSensor V)) :
    cs.foldl (fun acc2 coordinator =>
        PAIRED_SENSOR_SENSORS.foldl
          (fun a description =>
            a ++ [GuardianSensor.pairedSensor
              (PairedSensorSensor.init coordinator description)]) acc2) acc
      = acc ++ cs.flatMap (fun coordinator =>
          [GuardianSensor.pairedSensor
              (PairedSensorSensor.init coordinator SENSOR_DESCRIPTION_BATTERY),
            GuardianSensor.pairedSensor
              (PairedSensorSensor.init coordinator SENSOR_DESCRIPTION_TEMPERATURE)]) := by
  induction cs generalizing acc with
  | nil => simp
  | cons c rest ih =>
    rw [List.foldl_cons, ih]
    simp [PAIRED_SENSOR_SENSORS, List.append_assoc]

/-- C3: `async_setup_entry` hands the entity-addition callback exactly
one `ValveControllerSensor` per description in
`VALVE_CONTROLLER_SENSORS` (temperature, then uptime) followed by, for
each paired-sensor coordinator already registered for the entry, one
`PairedSensorSensor` per description in `PAIRED_SENSOR_SENSORS`
(battery, then temperature). -/
theorem async_setup_entry_adds_all_sensors {V : Type} (data : GuardianEntryData V) :
    async_setup_entry_sensors data =
      [GuardianSensor.valveController
          (ValveControllerSensor.init data.coordinator SENSOR_DESCRIPTION_TEMPERATURE),
        GuardianSensor.valveController
          (ValveControllerSensor.init data.coordinator SENSOR_DESCRIPTION_UPTIME)]
      ++ (data.coordinator_paired_sensor.map Prod.snd).flatMap (fun coordinator =>
          [GuardianSensor.pairedSensor
              (PairedSensorSensor.init coordinator SENSOR_DESCRIPTION_BATTERY),
            GuardianSensor.pairedSensor
              (PairedSensorSensor.init coordinator SENSOR_DESCRIPTION_TEMPERATURE)]) := by
  simp [async_setup_entry_sensors, VALVE_CONTROLLER_SENSORS, paired_loop_flattens]

/-- C4: when the paired-sensor-coordinator-added signal fires with a uid
whose coordinator is registered, `add_new_paired_sensor` builds one
`PairedSensorSensor` per description in `PAIRED_SENSOR_SENSORS` bound to
that coordinator and passes them to the entity-addition callback with
`update_before_add = True`. -/
theorem add_new_paired_sensor_adds_both {V : Type} (data : GuardianEntryData V)
    (uid : String) (c : DataUpdateCoordinator V)
    (h : pyGet data.coordinator_paired_sensor uid = some c) :
    add_new_paired_sensor data uid =
      some ([PairedSensorSensor.init c SENSOR_DESCRIPTION_BATTERY,
             PairedSensorSensor.init c SENSOR_DESCRIPTION_TEMPERATURE], true) := by
  simp [add_new_paired_sensor, h, PAIRED_SENSOR_SENSORS]

/-- Witness for C4 at a concrete registered uid. -/
theorem add_new_paired_sensor_adds_both_witness :
    add_new_paired_sensor
        (GuardianEntryData.mk []
          [("ab12", DataUpdateCoordinator.mk [("battery", (5 : Int))] true)]) "ab12"
      = some ([PairedSensorSensor.init
                (DataUpdateCoordinator.mk [("battery", (5 : Int))] true)
                SENSOR_DESCRIPTION_BATTERY,
              PairedSensorSensor.init
                (DataUpdateCoordinator.mk [("battery", (5 : Int))] true)
                SENSOR_DESCRIPTION_TEMPERATURE], true) :=
  add_new_paired_sensor_adds_both _ "ab12" _ rfl

/-- C5: both update callbacks read coordinator state only through
`data` at `"battery"`, `"temperature"`, `"uptime"` and
`last_update_success`: swapping a coordinator (dictionary) for one that
agrees on that narrow interface cannot change the observable entity
state produced by `_async_update_from_latest_data`, nor whether it
raises. -/
theorem update_reads_only_narrow_interface {V : Type} :
    (∀ (e : PairedSensorSensor V) (c1 c2 : DataUpdateCoordinator V),
      coordinatorsAgree c1 c2 →
      onResult PairedSensorSensor.view
          ({ e with coordinator := c1 })._async_update_from_latest_data
        = onResult PairedSensorSensor.view
          ({ e with coordinator := c2 })._async_update_from_latest_data) ∧
    (∀ (e : ValveControllerSensor V)
        (cs1 cs2 : List (String × DataUpdateCoordinator V)),
      coordinatorOptAgree (pyGet cs1 API_SYSTEM_ONBOARD_SENSOR_STATUS)
          (pyGet cs2 API_SYSTEM_ONBOARD_SENSOR_STATUS) →
      coordinatorOptAgree (pyGet cs1 API_SYSTEM_DIAGNOSTICS)
          (pyGet cs2 API_SYSTEM_DIAGNOSTICS) →
      onResult ValveControllerSensor.view
          ({ e with coordinators := cs1 })._async_update_from_latest_data
        = onResult ValveControllerSensor.view
          ({ e with coordinators := cs2 })._async_update_from_latest_data) := by
  constructor
  · rintro e c1 c2 ⟨hb, ht, hu, hl⟩
    simp only [PairedSensorSensor._async_update_from_latest_data, hb, ht]
    by_cases hkb : e._description.key = SENSOR_KIND_BATTERY
    · simp only [if_pos hkb]
      cases hx : pyGet c2.data "battery" <;>
        simp [onResult, PairedSensorSensor.view]
    · by_cases hkt : e._description.key = SENSOR_KIND_TEMPERATURE
      · simp only [if_neg hkb, if_pos hkt]
        cases hx : pyGet c2.data "temperature" <;>
          simp [onResult, PairedSensorSensor.view]
      · simp only [if_neg hkb, if_neg hkt]
        simp [onResult, PairedSensorSensor.view]
  · rintro e cs1 cs2 hOn hDiag
    simp only [ValveControllerSensor._async_update_from_latest_data]
    by_cases hkt : e._description.key = SENSOR_KIND_TEMPERATURE
    · simp only [hkt, if_true, eq_self_iff_true]
      cases h1 : pyGet cs1 API_SYSTEM_ONBOARD_SENSOR_STATUS with
      | none =>
        cases h2 : pyGet cs2 API_SYSTEM_ONBOARD_SENSOR_STATUS with
        | none => simp [onResult, ValveControllerSensor.view]
        | some d2 =>
          rw [h1, h2] at hOn
          simp [coordinatorOptAgree] at hOn
      | some d1 =>
        cases h2 : pyGet cs2 API_SYSTEM_ONBOARD_SENSOR_STATUS with
        | none =>
          rw [h1, h2] at hOn
          simp [coordinatorOptAgree] at hOn
        | some d2 =>
          rw [h1, h2] at hOn
          simp only [coordinatorOptAgree] at hOn
          obtain ⟨hb, ht, hu, hl⟩ := hOn
          simp only [h1, h2, ht, hl]
          cases hx : pyGet d2.data "temperature" <;>
            simp [onResult, ValveControllerSensor.view]
    · by_cases hku : e._description.key = SENSOR_KIND_UPTIME
      · simp only [if_neg hkt, if_pos hku]
        cases h1 : pyGet cs1 API_SYSTEM_DIAGNOSTICS with
        | none =>
          cases h2 : pyGet cs2 API_SYSTEM_DIAGNOSTICS with
          | none => simp [onResult, ValveControllerSensor.view]
          | some d2 =>
            rw [h1, h2] at hDiag
            simp [coordinatorOptAgree] at hDiag
        | some d1 =>
          cases h2 : pyGet cs2 API_SYSTEM_DIAGNOSTICS with
          | none =>
            rw [h1, h2] at hDiag
            simp [coordinatorOptAgree] at hDiag
          | some d2 =>
            rw [h1, h2] at hDiag
            simp only [coordinatorOptAgree] at hDiag
            obtain ⟨hb, ht, hu, hl⟩ := hDiag
            simp only [h1, h2, hu, hl]
            cases hx : pyGet d2.data "uptime" <;>
              simp [onResult, ValveControllerSensor.view]
      · simp only [if_neg hkt, if_neg hku]
        simp [onResult, ValveControllerSensor.view]

/-- Witness for C5: two concrete coordinators that differ outside the
narrow interface produce the same observable update. -/
theorem update_reads_only_narrow_interface_witness :
    onResult PairedSensorSensor.view
        ({ PairedSensorSensor.init
              (DataUpdateCoordinator.mk [("battery", (1 : Int))] true)
              SENSOR_DESCRIPTION_BATTERY with
            coordinator :=
              DataUpdateCoordinator.mk [("battery", (1 : Int)), ("extra", 5)] true
          })._async_update_from_latest_data
      = onResult PairedSensorSensor.view
          ({ PairedSensorSensor.init
                (DataUpdateCoordinator.mk [("battery", (1 : Int))] true)
                SENSOR_DESCRIPTION_BATTERY with
              coordinator := DataUpdateCoordinator.mk [("battery", (1 : Int))] true
            })._async_update_from_latest_data :=
  (update_reads_only_narrow_interface (V := Int)).1
    (PairedSensorSensor.init
      (DataUpdateCoordinator.mk [("battery", (1 : Int))] true)
      SENSOR_DESCRIPTION_BATTERY)
    (DataUpdateCoordinator.mk [("battery", (1 : Int)), ("extra", 5)] true)
    (DataUpdateCoordinator.mk [("battery", (1 : Int))] true)
    ⟨rfl, rfl, rfl, rfl⟩

/-- C6: when the data key selected by the entity's sensor kind is absent
from the relevant coordinator's `data` dictionary,
`_async_update_from_latest_data` raises the lookup fault to its caller;
the module installs no handler or default. -/
theorem missing_key_raises_to_caller {V : Type} :
    (∀ (e : PairedSensorSensor V),
      (e._description.key = SENSOR_KIND_BATTERY →
        pyGet e.coordinator.data "battery" = none →
        raisedKeyError e._async_update_from_latest_data = true) ∧
      (e._description.key = SENSOR_KIND_TEMPERATURE →
        pyGet e.coordinator.data "temperature" = none →
        raisedKeyError e._async_update_from_latest_data = true)) ∧
    (∀ (e : ValveControllerSensor V) (c : DataUpdateCoordinator V),
      (e._description.key = SENSOR_KIND_TEMPERATURE →
        pyGet e.coordinators API_SYSTEM_ONBOARD_SENSOR_STATUS = some c →
        pyGet c.data "temperature" = none →
        raisedKeyError e._async_update_from_latest_data = true) ∧
      (e._description.key = SENSOR_KIND_UPTIME →
        pyGet e.coordinators API_SYSTEM_DIAGNOSTICS = some c →
        pyGet c.data "uptime" = none →
        raisedKeyError e._async_update_from_latest_data = true)) := by
  constructor
  · intro e
    constructor
    · intro hd hv
      simp [PairedSensorSensor._async_update_from_latest_data, hd, hv,
        raisedKeyError]
    · intro hd hv
      simp [PairedSensorSensor._async_update_from_latest_data, hd, hv,
        raisedKeyError, SENSOR_KIND_BATTERY, SENSOR_KIND_TEMPERATURE]
  · intro e c
    constructor
    · intro hd hc hv
      simp [ValveControllerSensor._async_update_from_latest_data, hd, hc, hv,
        raisedKeyError]
    · intro hd hc hv
      simp [ValveControllerSensor._async_update_from_latest_data, hd, hc, hv,
        raisedKeyError, SENSOR_KIND_TEMPERATURE, SENSOR_KIND_UPTIME]

/-- Witness for C6 at a concrete battery sensor with empty coordinator
data. -/
theorem missing_key_raises_to_caller_witness :
    raisedKeyError
        (PairedSensorSensor.init (DataUpdateCoordinator.mk ([] : List (String × Int)) true)
            SENSOR_DESCRIPTION_BATTERY)._async_update_from_latest_data = true :=
  ((missing_key_raises_to_caller (V := Int)).1
      (PairedSensorSensor.init (DataUpdateCoordinator.mk [] true)
        SENSOR_DESCRIPTION_BATTERY)).1 rfl rfl

/-- C7: an entity whose description key lies outside the two kinds
handled by its class is left entirely unchanged by
`_async_update_from_latest_data` (which returns normally). -/
theorem unknown_kind_leaves_entity_unchanged {V : Type} :
    (∀ (e : PairedSensorSensor V),
      e._description.key ≠ SENSOR_KIND_BATTERY →
      e._description.key ≠ SENSOR_KIND_TEMPERATURE →
      e._async_update_from_latest_data = .ok e) ∧
    (∀ (e : ValveControllerSensor V),
      e._description.key ≠ SENSOR_KIND_TEMPERATURE →
      e._description.key ≠ SENSOR_KIND_UPTIME →
      e._async_update_from_latest_data = .ok e) := by
  constructor
  · intro e h1 h2
    simp [PairedSensorSensor._async_update_from_latest_data, h1, h2]
  · intro e h1 h2
    simp [ValveControllerSensor._async_update_from_latest_data, h1, h2]

/-- Witness for C7: a paired sensor with the foreign key `"uptime"` and
a valve controller sensor with the foreign key `"battery"` are left
unchanged. -/
theorem unknown_kind_leaves_entity_unchanged_witness :
    (PairedSensorSensor.init (DataUpdateCoordinator.mk ([] : List (String × Int)) true)
          SENSOR_DESCRIPTION_UPTIME)._async_update_from_latest_data
        = .ok (PairedSensorSensor.init (DataUpdateCoordinator.mk [] true)
            SENSOR_DESCRIPTION_UPTIME) ∧
      (ValveControllerSensor.init ([] : List (String × DataUpdateCoordinator Int))
          SENSOR_DESCRIPTION_BATTERY)._async_update_from_latest_data
        = .ok (ValveControllerSensor.init [] SENSOR_DESCRIPTION_BATTERY) :=
  ⟨(unknown_kind_leaves_entity_unchanged (V := Int)).1 _ (by decide) (by decide),
    (unknown_kind_leaves_entity_unchanged (V := Int)).2 _ (by decide) (by decide)⟩

/-- C8: `PairedSensorSensor._async_update_from_latest_data` never
touches `_attr_available` (it neither assigns it nor reads
`last_update_success`): availability is unchanged for every entity and
coordinator state, whether or not the update raises.  In contrast,
`ValveControllerSensor` ties availability to the consulted coordinator's
`last_update_success` whenever that coordinator is found. -/
theorem paired_update_never_touches_availability {V : Type} :
    (∀ (e : PairedSensorSensor V),
      collapse PairedSensorSensor._attr_available
          e._async_update_from_latest_data = e._attr_available) ∧
    (∀ (e : ValveControllerSensor V) (c : DataUpdateCoordinator V),
      e._description.key = SENSOR_KIND_TEMPERATURE →
      pyGet e.coordinators API_SYSTEM_ONBOARD_SENSOR_STATUS = some c →
      collapse ValveControllerSensor._attr_available
          e._async_update_from_latest_data = c.last_update_success) := by
  constructor
  · intro e
    by_cases h1 : e._description.key = SENSOR_KIND_BATTERY
    · simp only [PairedSensorSensor._async_update_from_latest_data, if_pos h1]
      cases pyGet e.coordinator.data "battery" <;> simp [collapse]
    · by_cases h2 : e._description.key = SENSOR_KIND_TEMPERATURE
      · simp only [PairedSensorSensor._async_update_from_latest_data,
          if_neg h1, if_pos h2]
        cases pyGet e.coordinator.data "temperature" <;> simp [collapse]
      · simp [PairedSensorSensor._async_update_from_latest_data,
          if_neg h1, if_neg h2, collapse]
  · intro e c hd hc
    simp only [ValveControllerSensor._async_update_from_latest_data,
      if_pos hd, hc]
    cases pyGet c.data "temperature" <;> simp [collapse]

/-- Witness for C8: a concrete paired temperature sensor with failed
coordinator keeps availability `true`, while a concrete valve controller
temperature sensor inherits `last_update_success = false`. -/
theorem paired_update_never_touches_availability_witness :
    collapse PairedSensorSensor._attr_available
        (PairedSensorSensor.init
            (DataUpdateCoordinator.mk [("temperature", (70 : Int))] false)
            SENSOR_DESCRIPTION_TEMPERATURE)._async_update_from_latest_data = true ∧
      collapse ValveControllerSensor._attr_available
          (ValveControllerSensor.init
              [(API_SYSTEM_ONBOARD_SENSOR_STATUS,
                DataUpdateCoordinator.mk [("temperature", (70 : Int))] false)]
              SENSOR_DESCRIPTION_TEMPERATURE)._async_update_from_latest_data = false :=
  ⟨(paired_update_never_touches_availability (V := Int)).1
      (PairedSensorSensor.init
        (DataUpdateCoordinator.mk [("temperature", (70 : Int))] false)
        SENSOR_DESCRIPTION_TEMPERATURE),
    (paired_update_never_touches_availability (V := Int)).2
      (ValveControllerSensor.init
        [(API_SYSTEM_ONBOARD_SENSOR_STATUS,
          DataUpdateCoordinator.mk [("temperature", (70 : Int))] false)]
        SENSOR_DESCRIPTION_TEMPERATURE)
      (DataUpdateCoordinator.mk [("temperature", (70 : Int))] false) rfl rfl⟩

/-- C9: both constructors copy the description's
`native_unit_of_measurement` (percent for battery, degrees Fahrenheit
for temperature, minutes for uptime) into
`_attr_native_unit_of_measurement`, and no update callback of this
module ever changes that attribute afterwards. -/
theorem native_unit_set_at_init_and_never_changed {V : Type} :
    (∀ (c : DataUpdateCoordinator V) (d : SensorEntityDescription),
      (PairedSensorSensor.init c d)._attr_native_unit_of_measurement
        = d.native_unit_of_measurement) ∧
    (∀ (cs : List (String × DataUpdateCoordinator V)) (d : SensorEntityDescription),
      (ValveControllerSensor.init cs d)._attr_native_unit_of_measurement
        = d.native_unit_of_measurement) ∧
    (∀ (e : PairedSensorSensor V),
      collapse PairedSensorSensor._attr_native_unit_of_measurement
          e._async_update_from_latest_data
        = e._attr_native_unit_of_measurement) ∧
    (∀ (e : ValveControllerSensor V),
      collapse ValveControllerSensor._attr_native_unit_of_measurement
          e._async_update_from_latest_data
        = e._attr_native_unit_of_measurement) ∧
    SENSOR_DESCRIPTION_BATTERY.native_unit_of_measurement = some PERCENTAGE ∧
    SENSOR_DESCRIPTION_TEMPERATURE.native_unit_of_measurement = some TEMP_FAHRENHEIT ∧
    SENSOR_DESCRIPTION_UPTIME.native_unit_of_measurement = some TIME_MINUTES := by
  refine ⟨fun c d => rfl, fun cs d => rfl, ?_, ?_, rfl, rfl, rfl⟩
  · intro e
    by_cases h1 : e._description.key = SENSOR_KIND_BATTERY
    · simp only [PairedSensorSensor._async_update_from_latest_data, if_pos h1]
      cases pyGet e.coordinator.data "battery" <;> simp [collapse]
    · by_cases h2 : e._description.key = SENSOR_KIND_TEMPERATURE
      · simp only [PairedSensorSensor._async_update_from_latest_data,
          if_neg h1, if_pos h2]
        cases pyGet e.coordinator.data "temperature" <;> simp [collapse]
      · simp [PairedSensorSensor._async_update_from_latest_data,
          if_neg h1, if_neg h2, collapse]
  · intro e
    by_cases h1 : e._description.key = SENSOR_KIND_TEMPERATURE
    · simp only [ValveControllerSensor._async_update_from_latest_data, if_pos h1]
      cases hc : pyGet e.coordinators API_SYSTEM_ONBOARD_SENSOR_STATUS with
      | none => simp [collapse]
      | some c =>
        cases hx : pyGet c.data "temperature" <;> simp [collapse, hx]
    · by_cases h2 : e._description.key = SENSOR_KIND_UPTIME
      · simp only [ValveControllerSensor._async_update_from_latest_data,
          if_neg h1, if_pos h2]
        cases hc : pyGet e.coordinators API_SYSTEM_DIAGNOSTICS with
        | none => simp [collapse]
        | some c =>
          cases hx : pyGet c.data "uptime" <;> simp [collapse, hx]
      · simp [ValveControllerSensor._async_update_from_latest_data,
          if_neg h1, if_neg h2, collapse]

/-- C10: `ValveControllerSensor._async_continue_entity_setup` registers
a coordinator-update listener for the onboard-sensor-status API exactly
when the description key is `"temperature"`; any other kind (uptime in
particular) registers nothing. -/
theorem valve_setup_listener_iff_temperature {V : Type} :
    ∀ (e : ValveControllerSensor V),
      (API_SYSTEM_ONBOARD_SENSOR_STATUS ∈ e._async_continue_entity_setup ↔
        e._description.key = SENSOR_KIND_TEMPERATURE) ∧
      (e._description.key ≠ SENSOR_KIND_TEMPERATURE →
        e._async_continue_entity_setup = []) := by
  intro e
  by_cases h : e._description.key = SENSOR_KIND_TEMPERATURE <;>
    simp [ValveControllerSensor._async_continue_entity_setup, h]

/-- Witness for C10: a concrete uptime valve controller sensor registers
no listener. -/
theorem valve_setup_listener_iff_temperature_witness :
    (ValveControllerSensor.init ([] : List (String × DataUpdateCoordinator Int))
        SENSOR_DESCRIPTION_UPTIME)._async_continue_entity_setup = [] :=
  (valve_setup_listener_iff_temperature
      (ValveControllerSensor.init [] SENSOR_DESCRIPTION_UPTIME)).2 (by decide)
